import Mathlib

/-!
Verification of the AI-gateway backend service (src/backend-service/main.py)
against its natural-language specification.

The embedding models the request dispatch and resilience layer:
the ChatRequest schema and its boundary validation (pydantic Field
declarations, main.py lines 63-69), the proxy-backend chat operation
(the chat endpoint, lines 220-298), the managed-model operation
(vertex_ai_chat, lines 301-341), the per-backend metrics increments
(LITELLM_REQUESTS / VERTEX_AI_REQUESTS counters) and the fire-and-forget
audit log task (log_chat_request).

Wall-clock quantities (timestamp, processing_time) are inherently
non-embeddable and are omitted from the response model; no claim
depends on their values.  The behaviour of the upstream proxy service
and of the managed-model SDK is a parameter of each operation, so the
operations are total functions of (request, upstream behaviour, client
state).
-/

/-- A validated chat request, as produced by the pydantic model
ChatRequest (main.py lines 63-69).  temperature is modelled over the
rationals and max_tokens over the integers. -/
structure ChatRequest where
  message : String
  model : String
  temperature : Option ℚ
  max_tokens : Option ℤ
  system_prompt : Option String
  conversation_id : Option String
deriving Repr, DecidableEq

/-- The wire-level inbound JSON body before pydantic validation.  For
each field, the outer Option is presence of the key (none = key
omitted) and the inner Option records an explicit JSON null. -/
structure RawChatRequest where
  message : Option (Option String)
  model : Option (Option String)
  temperature : Option (Option ℚ)
  max_tokens : Option (Option ℤ)
  system_prompt : Option (Option String)
  conversation_id : Option (Option String)
deriving Repr, DecidableEq

/-- Boundary validation of ChatRequest, traced from the pydantic Field
declarations (main.py lines 63-69):
message is a required str (an omitted or null key is rejected, but any
string, including the empty one, is accepted: the field carries no
minimum-length constraint); model is a str defaulting to "gemini-pro";
temperature is Optional with default 0.7 and bounds 0.0 to 2.0, where
an explicit null is accepted and bypasses the bounds (pydantic checks
ge/le only on non-null values of an Optional field); max_tokens is
Optional with default 1000 and bounds 1 to 4000, likewise nullable;
system_prompt and conversation_id are Optional str defaulting to null. -/
def defaultedTemperature : Option (Option ℚ) → Option ℚ
  | none => some ((7 : ℚ) / 10)
  | some t => t

def temperatureOk : Option ℚ → Bool
  | none => true
  | some t => decide (0 ≤ t ∧ t ≤ 2)

def defaultedMaxTokens : Option (Option ℤ) → Option ℤ
  | none => some 1000
  | some m => m

def maxTokensOk : Option ℤ → Bool
  | none => true
  | some m => decide (1 ≤ m ∧ m ≤ 4000)

def defaultedModel : Option (Option String) → String
  | some (some m) => m
  | _ => "gemini-pro"

def validateChatRequest (r : RawChatRequest) : Option ChatRequest :=
  match r.message with
  | some (some msg) =>
    match r.model with
    | some none => none
    | _ =>
      if temperatureOk (defaultedTemperature r.temperature)
          && maxTokensOk (defaultedMaxTokens r.max_tokens) then
        some { message := msg
               model := defaultedModel r.model
               temperature := defaultedTemperature r.temperature
               max_tokens := defaultedMaxTokens r.max_tokens
               system_prompt := (r.system_prompt.getD none)
               conversation_id := (r.conversation_id.getD none) }
      else none
  | _ => none

/-- A normalized chat response (ChatResponse, main.py lines 71-77),
without the wall-clock fields timestamp and processing_time. -/
structure ChatResponse where
  response : String
  model : String
  tokens_used : Option ℕ
  conversation_id : Option String
deriving Repr, DecidableEq

/-- The caller-visible outcome of an endpoint call: either a response
body or a raised HTTPException with a status code and a detail string. -/
inductive ChatOutcome where
  | ok (resp : ChatResponse)
  | httpError (status : ℕ) (detail : String)
deriving Repr, DecidableEq

/-- The usage object of an upstream completion reply; total_tokens is
none when the key is absent or null. -/
structure UsageJson where
  total_tokens : Option ℕ
deriving Repr, DecidableEq

/-- The parsed JSON body of a 200 upstream reply.  choicesContent is
the value of choices[0].message.content when that path exists (none
models the KeyError/IndexError the extraction on main.py line 267
raises on a malformed body); usage is none when the body has no usage
key, mirroring result.get on line 268. -/
structure UpstreamJson where
  choicesContent : Option String
  usage : Option UsageJson
deriving Repr, DecidableEq

/-- The behaviour of the proxy upstream for one call of
client.post (main.py lines 247-252): a reply with an HTTP status, a
raw body text and, when the body parses as JSON, its parsed form
(none models response.json raising on line 261); or an
httpx.TimeoutException; or any other httpx.RequestError. -/
inductive UpstreamBehavior where
  | reply (status : ℕ) (body : String) (json : Option UpstreamJson)
  | timeout
  | requestError (msg : String)
deriving Repr, DecidableEq

/-- One audit-log task queued by background_tasks.add_task with
log_chat_request (main.py lines 271-278, 361-371): the model name, the
input and output lengths, and the token count.  processing_time is
wall clock and omitted. -/
structure AuditEntry where
  model : String
  input_length : ℕ
  output_length : ℕ
  tokens_used : Option ℕ
deriving Repr, DecidableEq

/-- Everything one call of the chat endpoint produces: the
caller-visible outcome, the LITELLM_REQUESTS counter increments in
order, each a (model label, status label) pair, the audit tasks
scheduled, whether the shared http_client is still open afterwards,
and how many outbound upstream calls were issued. -/
structure ChatStep where
  outcome : ChatOutcome
  litellmIncrements : List (String × String)
  auditTasks : List AuditEntry
  clientOpenAfter : Bool
  upstreamCalls : ℕ
deriving Repr, DecidableEq

/-- The message list built for the proxy request (main.py lines
229-243): a single user message, with a system message inserted at the
front when request.system_prompt is truthy.  Python truthiness makes
both None and the empty string skip the insert. -/
def litellmMessages (req : ChatRequest) : List (String × String) :=
  let base := [("user", req.message)]
  match req.system_prompt with
  | some sp => if sp = "" then base else ("system", sp) :: base
  | none => base

/-- The full translated payload posted to the proxy completion route
(main.py lines 229-243): model, ordered messages, temperature and
max_tokens copied from the request. -/
structure LitellmPayload where
  model : String
  messages : List (String × String)
  temperature : Option ℚ
  max_tokens : Option ℤ
deriving Repr, DecidableEq

def litellm_request (req : ChatRequest) : LitellmPayload :=
  { model := req.model
    messages := litellmMessages req
    temperature := req.temperature
    max_tokens := req.max_tokens }

/-- The chat endpoint (main.py lines 220-298), traced branch by
branch.  clientOpen is the state of the shared http_client at entry.

The code enters an async-with block on the shared client (line 246):
if the client is no longer open, httpx raises a RuntimeError before
any outbound call; that RuntimeError is not an httpx.TimeoutException
nor an httpx.RequestError, so it lands in the final catch-all except
(lines 295-298), which increments the error counter once and raises
HTTPException 500.  Whenever the block is entered, its exit closes the
shared client, on normal completion and on exception alike.

Inside the block: a TimeoutException from client.post is caught on
line 289 (one timeout increment, HTTPException 504); any other
RequestError is caught on line 292 (one error increment, HTTPException
502 whose detail prepends a connection-error marker to the message); a
reply with status other than 200 increments the error counter on line
255 and raises an HTTPException carrying the upstream status and the
upstream body prefixed by a marker (lines 256-259). That raised
HTTPException, however, is itself an Exception and is re-caught by the
catch-all on line 295, which increments the error counter a second
time and replaces the failure by HTTPException 500 with detail
Internal server error.  On a 200 reply, a body that fails to parse as
JSON raises inside the block before the success increment (one error
increment, HTTPException 500); otherwise the success counter is
incremented (line 262), and a malformed choices path then raises
during extraction on line 267, re-caught by the catch-all (a second,
error increment and HTTPException 500).  On full success, one audit
task is scheduled and the ChatResponse echoes the request model and
conversation_id, with tokens_used read from usage.total_tokens. -/
def chat (clientOpen : Bool) (req : ChatRequest) (up : UpstreamBehavior) : ChatStep :=
  if clientOpen = false then
    { outcome := .httpError 500 "Internal server error"
      litellmIncrements := [(req.model, "error")]
      auditTasks := []
      clientOpenAfter := false
      upstreamCalls := 0 }
  else
    match up with
    | .timeout =>
      { outcome := .httpError 504 "Request timeout"
        litellmIncrements := [(req.model, "timeout")]
        auditTasks := []
        clientOpenAfter := false
        upstreamCalls := 1 }
    | .requestError msg =>
      { outcome := .httpError 502 ("Connection error: " ++ msg)
        litellmIncrements := [(req.model, "error")]
        auditTasks := []
        clientOpenAfter := false
        upstreamCalls := 1 }
    | .reply status _body json =>
      if status ≠ 200 then
        { outcome := .httpError 500 "Internal server error"
          litellmIncrements := [(req.model, "error"), (req.model, "error")]
          auditTasks := []
          clientOpenAfter := false
          upstreamCalls := 1 }
      else
        match json with
        | none =>
          { outcome := .httpError 500 "Internal server error"
            litellmIncrements := [(req.model, "error")]
            auditTasks := []
            clientOpenAfter := false
            upstreamCalls := 1 }
        | some j =>
          match j.choicesContent with
          | none =>
            { outcome := .httpError 500 "Internal server error"
              litellmIncrements := [(req.model, "success"), (req.model, "error")]
              auditTasks := []
              clientOpenAfter := false
              upstreamCalls := 1 }
          | some content =>
            let tokens : Option ℕ := j.usage.bind (fun u => u.total_tokens)
            { outcome := .ok
                { response := content
                  model := req.model
                  tokens_used := tokens
                  conversation_id := req.conversation_id }
              litellmIncrements := [(req.model, "success")]
              auditTasks := [{ model := req.model
                               input_length := req.message.length
                               output_length := content.length
                               tokens_used := tokens }]
              clientOpenAfter := false
              upstreamCalls := 1 }

/-- The behaviour of the managed-model SDK for one generate_content
call (main.py lines 312-324): a reply exposing a text field, or any
exception raised during the call. -/
inductive VertexBehavior where
  | reply (text : String)
  | sdkError (msg : String)
deriving Repr, DecidableEq

/-- Everything one call of the vertex_ai_chat endpoint produces: the
outcome, the VERTEX_AI_REQUESTS counter increments in order, and how
many SDK calls were issued. -/
structure VertexStep where
  outcome : ChatOutcome
  vertexIncrements : List (String × String)
  sdkCalls : ℕ
deriving Repr, DecidableEq

/-- The vertex_ai_chat endpoint (main.py lines 301-341).  available is
the module-level vertex_ai_available flag set once at process start
(lines 113-119).  When the flag is false the endpoint raises
HTTPException 503 with detail Vertex AI not available before the try
block, so no counter is touched and no SDK call is made.  Otherwise a
successful generation yields a success increment and a ChatResponse
echoing the request model and conversation_id with tokens_used always
none (line 332); any exception yields one error increment and an
HTTPException 500 whose detail prepends a marker to the original
message (lines 338-341). -/
def vertex_ai_chat (available : Bool) (req : ChatRequest) (beh : VertexBehavior) : VertexStep :=
  if available = false then
    { outcome := .httpError 503 "Vertex AI not available"
      vertexIncrements := []
      sdkCalls := 0 }
  else
    match beh with
    | .reply text =>
      { outcome := .ok
          { response := text
            model := req.model
            tokens_used := none
            conversation_id := req.conversation_id }
        vertexIncrements := [(req.model, "success")]
        sdkCalls := 1 }
    | .sdkError msg =>
      { outcome := .httpError 500 ("Vertex AI error: " ++ msg)
        vertexIncrements := [(req.model, "error")]
        sdkCalls := 1 }

/-- The two backend adapters the process registers (the proxy chat
route and the managed-model route); the adapter set is fixed at
process start. -/
inductive Adapter where
  | proxy
  | vertex
deriving Repr, DecidableEq

/-- Modelled from the spec: the repository wires each adapter to its
own fixed route (main.py lines 220 and 301) and leaves unmatched
backend selectors to the enclosing web framework, so the dispatcher
step that rejects an unknown explicit backend selector is not itself
code under src/.  Following the spec (section 4.1: use the explicitly
selected backend, fail with InternalError if unknown, otherwise use
the default adapter), the selector none denotes no explicit backend
and maps to the default proxy adapter, the selector of the
managed-model route maps to the vertex adapter, and any other selector
is an error. -/
def selectAdapter : Option String → Except String Adapter
  | none => .ok .proxy
  | some sel => if sel = "vertex-ai" then .ok .vertex else .error "unknown backend"

/-- Modelled from the spec: one dispatch step.  A known selector runs
the selected adapter on the request; an unknown selector fails with
the InternalError class (an internal-error outcome, status 500)
without consulting the request, the client state or either backend
behaviour. -/
def dispatch (sel : Option String) (clientOpen available : Bool)
    (req : ChatRequest) (up : UpstreamBehavior) (vb : VertexBehavior) : ChatOutcome :=
  match selectAdapter sel with
  | .error e => .httpError 500 e
  | .ok .proxy => (chat clientOpen req up).outcome
  | .ok .vertex => (vertex_ai_chat available req vb).outcome

/-- C1: the claim says a non-200 upstream reply fails the chat
operation with the upstream status code and the upstream body
surfaced verbatim (a 500 reply with body boom yielding that status and
body).  On the code, the HTTPException built on main.py lines 256-259
is re-caught by the catch-all except on line 295, which replaces it
with HTTPException 500 and the fixed detail Internal server error: at
the concrete failing input (upstream status 500, body boom) the
caller-visible outcome carries neither the body verbatim nor the body
inside the intended marker prefix, so the body is swallowed. -/
theorem C1_upstream_body_swallowed :
    (chat true
        { message := "hi", model := "gpt-x", temperature := some ((7 : ℚ) / 10),
          max_tokens := some 1000, system_prompt := none, conversation_id := none }
        (.reply 500 "boom" none)).outcome = .httpError 500 "Internal server error" ∧
    (chat true
        { message := "hi", model := "gpt-x", temperature := some ((7 : ℚ) / 10),
          max_tokens := some 1000, system_prompt := none, conversation_id := none }
        (.reply 500 "boom" none)).outcome ≠ .httpError 500 "boom" ∧
    (chat true
        { message := "hi", model := "gpt-x", temperature := some ((7 : ℚ) / 10),
          max_tokens := some 1000, system_prompt := none, conversation_id := none }
        (.reply 500 "boom" none)).outcome ≠ .httpError 500 "LiteLLM error: boom" := by
  refine ⟨rfl, ?_, ?_⟩ <;> decide

/-- C2: the claim says the per-backend counter is incremented exactly
once per chat call whatever the outcome.  On the code, a non-200
upstream reply increments the error counter on main.py line 255 and
then, because the HTTPException raised on line 256 is re-caught by the
catch-all except, again on line 296: at the concrete failing input the
counter is incremented twice in one call. -/
theorem C2_error_counter_double_increment :
    (chat true
        { message := "hi", model := "gpt-x", temperature := some ((7 : ℚ) / 10),
          max_tokens := some 1000, system_prompt := none, conversation_id := none }
        (.reply 500 "boom" none)).litellmIncrements
      = [("gpt-x", "error"), ("gpt-x", "error")] ∧
    (chat true
        { message := "hi", model := "gpt-x", temperature := some ((7 : ℚ) / 10),
          max_tokens := some 1000, system_prompt := none, conversation_id := none }
        (.reply 500 "boom" none)).litellmIncrements.length ≠ 1 := by
  exact ⟨rfl, by decide⟩

/-- C3: the claim says the shared outbound client is never closed per
request and remains open and usable after any chat call.  On the code,
the chat endpoint enters an async-with block on the module-level
http_client (main.py line 246), and exiting that block closes the
client; so after a first, fully successful call the shared client is
closed, and a second call fails with HTTPException 500 before issuing
any outbound request. -/
theorem C3_shared_client_closed_by_first_call :
    (chat true
        { message := "hi", model := "gpt-x", temperature := some ((7 : ℚ) / 10),
          max_tokens := some 1000, system_prompt := none, conversation_id := none }
        (.reply 200 "raw" (some { choicesContent := some "ok", usage := none }))).clientOpenAfter
      = false ∧
    (chat false
        { message := "hi", model := "gpt-x", temperature := some ((7 : ℚ) / 10),
          max_tokens := some 1000, system_prompt := none, conversation_id := none }
        (.reply 200 "raw" (some { choicesContent := some "ok", usage := none }))).outcome
      = .httpError 500 "Internal server error" ∧
    (chat false
        { message := "hi", model := "gpt-x", temperature := some ((7 : ℚ) / 10),
          max_tokens := some 1000, system_prompt := none, conversation_id := none }
        (.reply 200 "raw" (some { choicesContent := some "ok", usage := none }))).upstreamCalls
      = 0 := by
  exact ⟨rfl, rfl, rfl⟩

/-- C4: selecting an unknown explicit backend fails with the
InternalError class independently of the request content, the client
state and both backend behaviours; a known selector picks exactly one
adapter, and the absent selector picks the default proxy adapter.
The unknown-selector step is modelled from the spec, since the
repository delegates unmatched routes to the web framework. -/
theorem C4_unknown_backend_internal_error (sel : String) (h : sel ≠ "vertex-ai")
    (co av co2 av2 : Bool) (req req2 : ChatRequest) (up up2 : UpstreamBehavior)
    (vb vb2 : VertexBehavior) :
    dispatch (some sel) co av req up vb = .httpError 500 "unknown backend" ∧
    dispatch (some sel) co av req up vb = dispatch (some sel) co2 av2 req2 up2 vb2 ∧
    selectAdapter none = .ok .proxy ∧
    selectAdapter (some "vertex-ai") = .ok .vertex := by
  simp [dispatch, selectAdapter, h]

/-- C4 witness: the concrete unknown selector openai yields the
InternalError outcome for a concrete request. -/
theorem C4_unknown_backend_internal_error_witness :
    dispatch (some "openai") true true
      { message := "hi", model := "gpt-x", temperature := some ((7 : ℚ) / 10),
        max_tokens := some 1000, system_prompt := none, conversation_id := none }
      .timeout (.reply "t") = .httpError 500 "unknown backend" :=
  (C4_unknown_backend_internal_error "openai" (by decide) true true true true
    { message := "hi", model := "gpt-x", temperature := some ((7 : ℚ) / 10),
      max_tokens := some 1000, system_prompt := none, conversation_id := none }
    { message := "hi", model := "gpt-x", temperature := some ((7 : ℚ) / 10),
      max_tokens := some 1000, system_prompt := none, conversation_id := none }
    .timeout .timeout (.reply "t") (.reply "t")).1

/-- C5 counterexample: the claim quotes the failure payload as the
literal backend unavailable; on the code the raised failure is
HTTPException 503 with detail Vertex AI not available, a different
literal, so the claim as stated fails at this concrete input. -/
theorem C5_counterexample :
    (vertex_ai_chat false
        { message := "hi", model := "gemini-pro", temperature := some ((7 : ℚ) / 10),
          max_tokens := some 1000, system_prompt := none, conversation_id := none }
        (.reply "t")).outcome = .httpError 503 "Vertex AI not available" ∧
    "Vertex AI not available" ≠ "backend unavailable" := by
  exact ⟨rfl, by decide⟩

/-- C5 amended: if the managed-model platform client failed to
initialize at process start, every call to the managed-model adapter
fails immediately with the InternalError class (HTTPException 503 with
detail Vertex AI not available, a local precondition failure raised
before the try block) with zero SDK calls, hence before any network
I/O, and without touching any counter. -/
theorem C5_unavailable_fails_without_network (req : ChatRequest) (beh : VertexBehavior) :
    vertex_ai_chat false req beh
      = { outcome := .httpError 503 "Vertex AI not available",
          vertexIncrements := [], sdkCalls := 0 } := rfl

/-- C6: a proxy-backend call that exceeds the configured timeout bound
fails with the Timeout outcome (HTTPException 504, the gateway-timeout
class), the per-backend counter is incremented exactly once with the
timeout label, and no audit-log task is scheduled. -/
theorem C6_timeout_one_increment_no_audit (req : ChatRequest) :
    chat true req .timeout
      = { outcome := .httpError 504 "Request timeout",
          litellmIncrements := [(req.model, "timeout")],
          auditTasks := [], clientOpenAfter := false, upstreamCalls := 1 } := rfl

/-- C7 counterexample: with system_prompt set to the empty string the
translated payload has no leading system message (Python truthiness on
main.py line 239 treats the empty string like None), so the claim that
the system message is present exactly when system_prompt is set fails
at this concrete input. -/
theorem C7_counterexample :
    (litellm_request
        { message := "hi", model := "gpt-x", temperature := some ((7 : ℚ) / 10),
          max_tokens := some 1000, system_prompt := some "", conversation_id := none }).messages
      = [("user", "hi")] ∧
    (litellm_request
        { message := "hi", model := "gpt-x", temperature := some ((7 : ℚ) / 10),
          max_tokens := some 1000, system_prompt := some "", conversation_id := none }).messages
      ≠ [("system", ""), ("user", "hi")] := by
  exact ⟨rfl, by decide⟩

/-- C7 amended: the translated payload has an ordered message list
consisting of a leading system message, present exactly when
system_prompt is set to a non-empty string, followed by a single user
message carrying the request message; model, temperature and
max_tokens pass through verbatim; and in particular the request with
message hi and system_prompt be terse translates to the system message
followed by the user message in that order. -/
theorem C7_translation (req : ChatRequest) :
    (litellm_request req).messages
      = (match req.system_prompt with
         | some s => if s = "" then [] else [("system", s)]
         | none => []) ++ [("user", req.message)] ∧
    (litellm_request req).model = req.model ∧
    (litellm_request req).temperature = req.temperature ∧
    (litellm_request req).max_tokens = req.max_tokens ∧
    (litellm_request
        { message := "hi", model := "gpt-x", temperature := some ((7 : ℚ) / 10),
          max_tokens := some 1000, system_prompt := some "be terse",
          conversation_id := none }).messages
      = [("system", "be terse"), ("user", "hi")] := by
  refine ⟨?_, rfl, rfl, rfl, rfl⟩
  cases h : req.system_prompt with
  | none => simp [litellm_request, litellmMessages, h]
  | some s =>
    by_cases hs : s = "" <;> simp [litellm_request, litellmMessages, h, hs]

/-- C8 counterexample: the raw body with message set to the empty
string and explicit nulls for temperature and max_tokens passes
boundary validation, producing a validated request whose message is
empty and whose temperature and max_tokens are absent rather than
floats in bounds, so the claim as stated fails at this concrete
input. -/
theorem C8_counterexample :
    validateChatRequest
        { message := some (some ""), model := none, temperature := some none,
          max_tokens := some none, system_prompt := none, conversation_id := none }
      = some { message := "", model := "gemini-pro", temperature := none,
               max_tokens := none, system_prompt := none, conversation_id := none } := by
  rfl

/-- Bounds carried by a temperature value that passes the pydantic
check: any present value lies between 0 and 2. -/
lemma temperatureOk_bounds (t : Option ℚ) (h : temperatureOk t = true) :
    ∀ x, t = some x → 0 ≤ x ∧ x ≤ 2 := by
  cases t with
  | none => intro x hx; cases hx
  | some y =>
    intro x hx
    cases hx
    simpa [temperatureOk] using h

/-- Bounds carried by a max_tokens value that passes the pydantic
check: any present value lies between 1 and 4000. -/
lemma maxTokensOk_bounds (m : Option ℤ) (h : maxTokensOk m = true) :
    ∀ x, m = some x → 1 ≤ x ∧ x ≤ 4000 := by
  cases m with
  | none => intro x hx; cases hx
  | some y =>
    intro x hx
    cases hx
    simpa [maxTokensOk] using h

/-- C8 amended: every ChatRequest that passes boundary validation has
a message string (possibly empty), a temperature that, when present,
lies in the closed interval 0 to 2 and defaults to 0.7 when the key is
omitted, and a max_tokens that, when present, lies in the closed
interval 1 to 4000 and defaults to 1000 when the key is omitted;
explicit nulls are accepted for both optional numeric fields and leave
them absent. -/
theorem C8_validated_bounds (raw : RawChatRequest) (req : ChatRequest)
    (h : validateChatRequest raw = some req) :
    (∀ t, req.temperature = some t → 0 ≤ t ∧ t ≤ 2) ∧
    (∀ m, req.max_tokens = some m → 1 ≤ m ∧ m ≤ 4000) ∧
    (raw.temperature = none → req.temperature = some ((7 : ℚ) / 10)) ∧
    (raw.max_tokens = none → req.max_tokens = some 1000) := by
  unfold validateChatRequest at h
  split at h
  · split at h
    · exact absurd h (by simp)
    · split at h
      · rename_i hcond
        rw [Bool.and_eq_true] at hcond
        obtain rfl : _ = req := Option.some.inj h
        refine ⟨temperatureOk_bounds _ hcond.1, maxTokensOk_bounds _ hcond.2, ?_, ?_⟩
        · intro hnone
          simp [defaultedTemperature, hnone]
        · intro hnone
          simp [defaultedMaxTokens, hnone]
      · exact absurd h (by simp)
  · exact absurd h (by simp)

/-- C8 witness: the concrete raw body carrying the message hi, an
explicit temperature and an explicit max_tokens validates, and the
amended bounds hold for those values. -/
theorem C8_validated_bounds_witness :
    (0 ≤ (1 : ℚ) ∧ (1 : ℚ) ≤ 2) ∧ (1 ≤ (2000 : ℤ) ∧ (2000 : ℤ) ≤ 4000) := by
  have h := C8_validated_bounds
    { message := some (some "hi"), model := none, temperature := some (some 1),
      max_tokens := some (some 2000), system_prompt := none, conversation_id := none }
    { message := "hi", model := "gemini-pro", temperature := some 1,
      max_tokens := some 2000, system_prompt := none, conversation_id := none }
    (by decide)
  exact ⟨h.1 _ rfl, h.2.1 _ rfl⟩

/-- C9 counterexample: a 200 upstream reply whose usage object is
present but carries no total_tokens key yields a successful response
with tokens_used absent, so the claim that tokens_used is populated
exactly when the upstream response carried a usage field fails at this
concrete input (main.py line 268 reads usage and then total_tokens,
each with a None fallback). -/
theorem C9_counterexample :
    (chat true
        { message := "hi", model := "gpt-x", temperature := some ((7 : ℚ) / 10),
          max_tokens := some 1000, system_prompt := none, conversation_id := some "c1" }
        (.reply 200 "raw" (some { choicesContent := some "ok",
                                  usage := some { total_tokens := none } }))).outcome
      = .ok { response := "ok", model := "gpt-x", tokens_used := none,
              conversation_id := some "c1" } ∧
    (some { total_tokens := none } : Option UsageJson).isSome = true := by
  exact ⟨rfl, rfl⟩

/-- C9 amended: every successful proxy-backend call echoes the request
conversation_id in the response, and tokens_used is populated exactly
when the upstream usage field was present and itself carried a
total_tokens count; absence of the usage field (or of its
total_tokens) is not an error and the call still succeeds. -/
theorem C9_success_echo_and_tokens (req : ChatRequest) (body content : String)
    (j : UpstreamJson) (h : j.choicesContent = some content) :
    (chat true req (.reply 200 body (some j))).outcome
      = .ok { response := content, model := req.model,
              tokens_used := j.usage.bind (fun u => u.total_tokens),
              conversation_id := req.conversation_id } ∧
    ((j.usage.bind (fun u => u.total_tokens)).isSome = true
      ↔ ∃ u, j.usage = some u ∧ u.total_tokens.isSome = true) := by
  obtain ⟨cc, u⟩ := j
  simp only at h
  subst h
  refine ⟨rfl, ?_⟩
  cases u with
  | none => simp
  | some uu => cases htt : uu.total_tokens <;> simp [htt]

/-- C9 witness: a concrete successful call with usage total_tokens 5
echoes the conversation_id c1 and reports 5 tokens. -/
theorem C9_success_echo_and_tokens_witness :
    (chat true
        { message := "hi", model := "gpt-x", temperature := some ((7 : ℚ) / 10),
          max_tokens := some 1000, system_prompt := none, conversation_id := some "c1" }
        (.reply 200 "b" (some { choicesContent := some "ok",
                                usage := some { total_tokens := some 5 } }))).outcome
      = .ok { response := "ok", model := "gpt-x", tokens_used := some 5,
              conversation_id := some "c1" } :=
  (C9_success_echo_and_tokens
    { message := "hi", model := "gpt-x", temperature := some ((7 : ℚ) / 10),
      max_tokens := some 1000, system_prompt := none, conversation_id := some "c1" }
    "b" "ok" { choicesContent := some "ok", usage := some { total_tokens := some 5 } }
    rfl).1

/-- Shape of any successful chat outcome: the response echoes the
request model and conversation_id. -/
lemma chat_ok_shape (c : Bool) (req : ChatRequest) (up : UpstreamBehavior)
    (r : ChatResponse) (h : (chat c req up).outcome = .ok r) :
    r.model = req.model ∧ r.conversation_id = req.conversation_id := by
  unfold chat at h
  split at h
  · exact ChatOutcome.noConfusion h
  · split at h
    · exact ChatOutcome.noConfusion h
    · exact ChatOutcome.noConfusion h
    · split at h
      · exact ChatOutcome.noConfusion h
      · split at h
        · exact ChatOutcome.noConfusion h
        · split at h
          · exact ChatOutcome.noConfusion h
          · injection h with h
            subst h
            exact ⟨rfl, rfl⟩

/-- Shape of any successful vertex outcome: the response echoes the
request model and conversation_id, and tokens_used is absent. -/
lemma vertex_ok_shape (av : Bool) (req : ChatRequest) (vb : VertexBehavior)
    (s : ChatResponse) (h : (vertex_ai_chat av req vb).outcome = .ok s) :
    s.model = req.model ∧ s.tokens_used = none ∧ s.conversation_id = req.conversation_id := by
  unfold vertex_ai_chat at h
  split at h
  · exact ChatOutcome.noConfusion h
  · split at h
    · injection h with h
      subst h
      exact ⟨rfl, rfl, rfl⟩
    · exact ChatOutcome.noConfusion h

/-- C10: every successful call of the proxy chat operation or of the
managed-model operation returns the request model verbatim in the
response model field, whatever the upstream reported, and on the
managed-model path tokens_used is always absent. -/
theorem C10_response_model_echoes_request (c av : Bool) (req : ChatRequest)
    (up : UpstreamBehavior) (vb : VertexBehavior) (r s : ChatResponse)
    (h1 : (chat c req up).outcome = .ok r)
    (h2 : (vertex_ai_chat av req vb).outcome = .ok s) :
    r.model = req.model ∧ s.model = req.model ∧ s.tokens_used = none := by
  obtain ⟨hm, _⟩ := chat_ok_shape c req up r h1
  obtain ⟨vm, vt, _⟩ := vertex_ok_shape av req vb s h2
  exact ⟨hm, vm, vt⟩

/-- C10 witness: concrete successful calls on both paths return the
request model gpt-x, with tokens_used absent on the managed-model
path. -/
theorem C10_response_model_echoes_request_witness :
    ({ response := "ok", model := "gpt-x", tokens_used := none,
       conversation_id := none } : ChatResponse).model = "gpt-x" ∧
    ({ response := "vtext", model := "gpt-x", tokens_used := none,
       conversation_id := none } : ChatResponse).model = "gpt-x" ∧
    ({ response := "vtext", model := "gpt-x", tokens_used := none,
       conversation_id := none } : ChatResponse).tokens_used = none :=
  C10_response_model_echoes_request true true
    { message := "hi", model := "gpt-x", temperature := some ((7 : ℚ) / 10),
      max_tokens := some 1000, system_prompt := none, conversation_id := none }
    (.reply 200 "b" (some { choicesContent := some "ok", usage := none }))
    (.reply "vtext")
    { response := "ok", model := "gpt-x", tokens_used := none, conversation_id := none }
    { response := "vtext", model := "gpt-x", tokens_used := none, conversation_id := none }
    rfl rfl
